import Mathlib

/-!
# Verification of the finance/flights MCP tool server

Shallow embedding of the Python sources
`src/tools/mcp/mcp_tools.py`, `src/tools/mcp/utils/google_finance_utils.py`
and `src/tools/mcp/utils/google_flights_utils.py`.

Modelling conventions:
* Python values flowing through the handlers are modelled by the `JVal`
  inductive (JSON-like values); Python dicts are association lists
  (`JObj`) with insertion order preserved, as in CPython.
* Python strings are modelled by `String` (for the query normalizer a
  `List Char` version is used, since Python strings are character
  sequences); `str.isupper` / `str.isdigit` / `str.lower` etc. are
  embedded with their ASCII semantics, which covers every value these
  claims quantify over.
* `datetime.now().isoformat()` is modelled as an explicit timestamp
  parameter `ts` threaded into each function that stamps a response.
* The network (`GoogleSearch(params).get_dict()`) is an oracle parameter
  `oracle : Except String JObj`: either the decoded JSON body or a raised
  exception (carrying its message).  A raised Python exception anywhere is
  `Except.error`; `try/except` blocks of the source are embedded as
  matches on that `Except`.
* Every tool handler returns `Except String JVal × List JObj`: the value
  produced (or an uncaught exception), together with the list of
  parameter maps it actually sent to the external gateway (used to state
  "no network call is issued" claims).
-/

set_option maxHeartbeats 1000000

namespace MCPTools

/-- JSON-like values (the Python values handled by this code). -/
inductive JVal where
  | null
  | b (bv : Bool)
  | i (n : Int)
  | s (str : String)
  | arr (xs : List JVal)
  | obj (fields : List (String × JVal))

/-- A Python dict with string keys, in insertion order. -/
abbrev JObj := List (String × JVal)

/-- Dict lookup (`d[k]` / `d.get(k)` core). -/
def jlookup (o : JObj) (k : String) : Option JVal :=
  (o.find? (fun p => p.1 == k)).map (fun p => p.2)

/-- Python `k in d`. -/
def hasKey (o : JObj) (k : String) : Bool :=
  (jlookup o k).isSome

/-- Python `d.get(k, default)`. -/
def jget (o : JObj) (k : String) (d : JVal) : JVal :=
  (jlookup o k).getD d

/-- Python `d[k] = v` (updates in place, appends new keys at the end). -/
def setKey (o : JObj) (k : String) (v : JVal) : JObj :=
  if o.any (fun p => p.1 == k) then
    o.map (fun p => if p.1 == k then (k, v) else p)
  else o ++ [(k, v)]

/-- Python truthiness of a value (`if x:`). -/
def pyTruthy : JVal → Bool
  | .null => false
  | .b bv => bv
  | .i n => n != 0
  | .s str => str != ""
  | .arr xs => !xs.isEmpty
  | .obj o => !o.isEmpty

/-- Truthiness of an `Optional[str]` (`None` and `""` are falsy). -/
def optStrTruthy : Option String → Bool
  | none => false
  | some t => t != ""

/-- Python `str(x)` as used in the f-string error messages.  The repr of
containers is not spelled out (no claim inspects it). -/
def pyStr : JVal → String
  | .s v => v
  | .i n => toString n
  | .b true => "True"
  | .b false => "False"
  | .null => "None"
  | .arr _ => "<list>"
  | .obj _ => "<dict>"

/-- Python `str.lower()` (ASCII). -/
def pyLower (t : String) : String := ⟨t.data.map Char.toLower⟩

/-- Python `str.upper()` (ASCII). -/
def pyUpper (t : String) : String := ⟨t.data.map Char.toUpper⟩

/-- Python `str.replace("-", "_")`. -/
def pyReplaceHyphen (t : String) : String :=
  ⟨t.data.map (fun c => if c = '-' then '_' else c)⟩

/-- Python `str.strip()` (drops leading and trailing whitespace). -/
def pyStrip (t : String) : String :=
  ⟨(((t.data.dropWhile Char.isWhitespace).reverse.dropWhile Char.isWhitespace).reverse)⟩

/-- Split a character list at every whitespace character. -/
def wsSplitGo : List Char → List (List Char)
  | [] => [[]]
  | c :: cs =>
    if c.isWhitespace then [] :: wsSplitGo cs
    else
      match wsSplitGo cs with
      | [] => [[c]]
      | p :: ps => (c :: p) :: ps

/-- Python `str.split()` with no separator: splits on whitespace and
drops empty pieces. -/
def pySplitWhitespace (t : String) : List String :=
  ((wsSplitGo t.data).map (fun l => (⟨l⟩ : String))).filter (fun p => p != "")

/-- An ASCII character is cased if it is a letter. -/
def pyIsCased (c : Char) : Bool := c.isUpper || c.isLower

/-- Python `str.isupper()`: at least one cased character, and no cased
character is lowercase (uncased characters such as `-`, `!` or digits are
ignored by the test). -/
def pyIsUpperL (l : List Char) : Bool :=
  l.any pyIsCased && !(l.any Char.isLower)

/-- Python `str.split(sep)` for a single-character separator, on character
lists. -/
def splitCh (sep : Char) : List Char → List (List Char)
  | [] => [[]]
  | c :: cs =>
    if c = sep then [] :: splitCh sep cs
    else
      match splitCh sep cs with
      | [] => [[c]]
      | p :: ps => (c :: p) :: ps

/-- `normalize_query` (google_finance_utils.py lines 42-54) on character
lists: if the query contains a colon and splits into exactly two parts
whose first part satisfies `isupper()` and contains no digit, swap the two
parts; otherwise return the query unchanged. -/
def normalize_queryL (query : List Char) : List Char :=
  if query.contains ':' then
    match splitCh ':' query with
    | [p0, p1] =>
      if pyIsUpperL p0 && !(p0.any Char.isDigit) then p1 ++ ':' :: p0
      else query
    | _ => query
  else query

/-- `normalize_query` on `String`. -/
def normalize_query (query : String) : String :=
  ⟨normalize_queryL query.data⟩

/-- Python attribute-style `x.get(k, default)`: succeeds on dicts, raises
`AttributeError` on anything else. -/
def jgetE (v : JVal) (k : String) (d : JVal) : Except String JVal :=
  match v with
  | .obj o => .ok (jget o k d)
  | _ => .error "AttributeError: object has no attribute get"

/-- Python `x[0]`. -/
def jindex0 : JVal → Except String JVal
  | .arr (x :: _) => .ok x
  | .arr [] => .error "IndexError: list index out of range"
  | .s str =>
    match str.data with
    | c :: _ => .ok (.s ⟨[c]⟩)
    | [] => .error "IndexError: string index out of range"
  | _ => .error "TypeError: object is not subscriptable"

/-- Python `x[:n]` for a non-negative `n`. -/
def jslice (v : JVal) (n : Nat) : Except String JVal :=
  match v with
  | .arr xs => .ok (.arr (xs.take n))
  | .s str => .ok (.s ⟨str.data.take n⟩)
  | _ => .error "TypeError: object is not subscriptable"

/-- Python iteration `for x in v`. -/
def jiter (v : JVal) : Except String (List JVal) :=
  match v with
  | .arr xs => .ok xs
  | .s str => .ok (str.data.map (fun c => JVal.s ⟨[c]⟩))
  | .obj o => .ok (o.map (fun p => JVal.s p.1))
  | _ => .error "TypeError: object is not iterable"

/-- Python `x.split()` for a value expected to be a string. -/
def pyStrSplit (v : JVal) : Except String (List String) :=
  match v with
  | .s str => .ok (pySplitWhitespace str)
  | _ => .error "AttributeError: object has no attribute split"

/-! Pydantic field validation.  `FlightDetails(...)` validates every
passed keyword against the declared field type at construction time and
raises `ValidationError` on a mismatch (e.g. a non-bool `overnight`, a
non-int `duration`, a list-valued airport `id`).  The embedded validators
accept exactly `None` and values already of the declared type (an int is
also accepted for the `float` field, as pydantic does); the lenient
cross-type coercions some pydantic versions apply (numeric strings to
numbers, `"yes"` to `True`, numbers to strings) are not modelled, so the
embedding raises on a few coercible values where a lenient pydantic would
coerce — on values of the declared types both behave identically, and on
the clearly type-mismatched values both raise. -/

/-- Accepted for an `Optional[str]` field. -/
def pydOptStr : JVal → Bool
  | .null => true
  | .s _ => true
  | _ => false

/-- Accepted for an `Optional[int]` field. -/
def pydOptInt : JVal → Bool
  | .null => true
  | .i _ => true
  | _ => false

/-- Accepted for an `Optional[bool]` field. -/
def pydOptBool : JVal → Bool
  | .null => true
  | .b _ => true
  | _ => false

/-- Accepted for an `Optional[float]` field (ints are accepted). -/
def pydOptFloat : JVal → Bool
  | .null => true
  | .i _ => true
  | _ => false

/-- Accepted for an `Optional[List[str]]` field. -/
def pydOptListStr : JVal → Bool
  | .null => true
  | .arr xs => xs.all (fun v => match v with | .s _ => true | _ => false)
  | _ => false

/-- Accepted for an `Optional[Dict[str, Any]]` field. -/
def pydOptDict : JVal → Bool
  | .null => true
  | .obj _ => true
  | _ => false

/-- Accepted for an `Optional[List[Dict[str, Any]]]` field. -/
def pydOptListDict : JVal → Bool
  | .null => true
  | .arr xs => xs.all (fun v => match v with | .obj _ => true | _ => false)
  | _ => false

/-- One iteration of the `parse_flights` loop
(google_flights_utils.py lines 42-86): `none` when the group has no legs
(the `continue` branch), otherwise the flattened `FlightDetails(...).dict()`
record built from the first leg and the group-level fields.  The
`FlightDetails` construction validates every passed field against its
declared type (see the `pydOpt*` validators above) and raises
`ValidationError` on a mismatch; `max_price` is never passed, so its
default is not validated. -/
def parseGroup (flight_info : JVal) : Except String (Option JVal) := do
  let flight_legs ← jgetE flight_info "flights" (.arr [])
  if pyTruthy flight_legs = false then
    return none
  let first_leg ← jindex0 flight_legs
  let departure_airport ← jgetE first_leg "departure_airport" (.obj [])
  let arrival_airport ← jgetE first_leg "arrival_airport" (.obj [])
  let departure_time ← jgetE departure_airport "time" (.s "")
  let arrival_time ← jgetE arrival_airport "time" (.s "")
  let departure_airport_id ← jgetE departure_airport "id" .null
  let departure_airport_name ← jgetE departure_airport "name" .null
  let arrival_airport_id ← jgetE arrival_airport "id" .null
  let arrival_airport_name ← jgetE arrival_airport "name" .null
  let airline ← jgetE first_leg "airline" .null
  let flight_number ← jgetE first_leg "flight_number" .null
  let airplane ← jgetE first_leg "airplane" .null
  let travel_class ← jgetE first_leg "travel_class" .null
  let duration ← jgetE first_leg "duration" .null
  let legroom ← jgetE first_leg "legroom" .null
  let overnight ← jgetE first_leg "overnight" .null
  let ticket_also_sold_by ← jgetE first_leg "ticket_also_sold_by" .null
  let extensions ← jgetE first_leg "extensions" .null
  let price ← jgetE flight_info "price" .null
  let departure_date ←
    if pyTruthy departure_time then do
      let parts ← pyStrSplit departure_time
      match parts with
      | [] => Except.error "IndexError: list index out of range"
      | p :: _ => pure (JVal.s p)
    else jgetE flight_info "departure_date" .null
  let return_date ← jgetE flight_info "return_date" .null
  let passenger ← jgetE flight_info "passenger" (.i 1)
  let total_duration ← jgetE flight_info "total_duration" .null
  let carbon_emissions ← jgetE flight_info "carbon_emissions" .null
  let legs ← jgetE flight_info "flights" .null
  if pydOptStr departure_airport_id && pydOptStr departure_airport_name &&
      pydOptStr departure_time && pydOptStr arrival_airport_id &&
      pydOptStr arrival_airport_name && pydOptStr arrival_time &&
      pydOptStr airline && pydOptStr flight_number && pydOptStr airplane &&
      pydOptStr travel_class && pydOptInt duration && pydOptStr legroom &&
      pydOptBool overnight && pydOptListStr ticket_also_sold_by &&
      pydOptListStr extensions && pydOptFloat price && pydOptStr departure_date &&
      pydOptStr return_date && pydOptInt passenger && pydOptInt total_duration &&
      pydOptDict carbon_emissions && pydOptListDict legs then
    return some (.obj [
    ("departure_airport_id", departure_airport_id),
    ("departure_airport_name", departure_airport_name),
    ("departure_time", departure_time),
    ("arrival_airport_id", arrival_airport_id),
    ("arrival_airport_name", arrival_airport_name),
    ("arrival_time", arrival_time),
    ("airline", airline),
    ("flight_number", flight_number),
    ("airplane", airplane),
    ("travel_class", travel_class),
    ("duration", duration),
    ("legroom", legroom),
    ("overnight", overnight),
    ("ticket_also_sold_by", ticket_also_sold_by),
    ("extensions", extensions),
    ("price", price),
    ("max_price", .null),
    ("departure_date", departure_date),
    ("return_date", return_date),
    ("passenger", passenger),
    ("total_duration", total_duration),
    ("carbon_emissions", carbon_emissions),
    ("legs", legs)])
  else
    Except.error "ValidationError"

/-- `parse_flights` (google_flights_utils.py lines 38-88): one flattened
record per group with at least one leg, in input order; a raised exception
anywhere aborts the whole parse. -/
def parse_flights : List JVal → Except String (List JVal)
  | [] => .ok []
  | fi :: rest => do
    let r ← parseGroup fi
    let rs ← parse_flights rest
    match r with
    | none => pure rs
    | some rec0 => pure (rec0 :: rs)

/-- `create_error_response` (google_finance_utils.py lines 56-64). -/
def create_error_response (ts query error tool_type : String) : JVal :=
  .obj [("tool", .s tool_type), ("query", .s query), ("timestamp", .s ts),
        ("error", .s error), ("success", .b false)]

/-- `create_success_response` (google_finance_utils.py lines 66-74). -/
def create_success_response (ts query : String) (data : JVal) (tool_type : String) : JVal :=
  .obj [("tool", .s tool_type), ("query", .s query), ("timestamp", .s ts),
        ("success", .b true), ("api_response", data)]

/-- `search_google` (mcp_tools.py lines 21-39): issues the request
(modelled by the `oracle`) inside `try/except`; an in-band `error` field
or a raised exception both collapse to a dict with a single `error` key. -/
def search_google (params : JObj) (oracle : Except String JObj) : JObj :=
  match oracle with
  | .ok results =>
    if hasKey results "error" then [("error", jget results "error" .null)]
    else results
  | .error e => [("error", .s e)]

/-- `TRAVEL_CLASS_MAP` (mcp_tools.py lines 43-60). -/
def TRAVEL_CLASS_MAP : List (String × Int) :=
  [("economy", 1), ("eco", 1), ("coach", 1),
   ("premium", 2), ("premium economy", 2), ("premium_economy", 2),
   ("business", 3), ("business class", 3), ("business_class", 3),
   ("first", 4), ("first class", 4), ("first_class", 4), ("luxury", 4)]

/-- Dict lookup in `TRAVEL_CLASS_MAP`. -/
def lookupTC (k : String) : Option Int :=
  (TRAVEL_CLASS_MAP.find? (fun p => p.1 == k)).map (fun p => p.2)

/-- The Python repr `list(TRAVEL_CLASS_MAP.keys())` used in the
invalid-travel-class message. -/
def travelClassKeysRepr : String :=
  "[" ++ String.intercalate ", "
    (TRAVEL_CLASS_MAP.map (fun p => "\x27" ++ p.1 ++ "\x27")) ++ "]"

/-- The f-string message of mcp_tools.py line 96. -/
def invalidTravelClassMsg (tc : String) : String :=
  "Invalid travel_class \x27" ++ tc ++ "\x27. Must be one of " ++ travelClassKeysRepr

/-- `if v: params[k] = v` for an `Optional[str]` parameter. -/
def addOptStr (o : JObj) (k : String) (v : Option String) : JObj :=
  match v with
  | some s0 => if s0 != "" then setKey o k (.s s0) else o
  | none => o

/-- `google_flights` (mcp_tools.py lines 62-142).  `env` models
`os.getenv` (the module-level `SERP_API_KEY = os.getenv("SERP_API_KEY")`
read), `ts` the response timestamp, `oracle` the external call.  Returns
the value of the handler together with the parameter maps sent to the gateway.
`max_results` is modelled as a `Nat` (negative slice indices are not
exercised by any claim). -/
def google_flights (departure_airport arrival_airport departure_date : String)
    (return_date airline_name travel_class : Option String)
    (max_price : Option Int) (max_results : Nat) (passengers : Option Int)
    (env : String → Option String) (ts : String) (oracle : Except String JObj) :
    Except String JVal × List JObj :=
  let _ := ts
  let passengers : Int :=
    match passengers with
    | some p => if p != 0 then p else 1
    | none => 1
  let travel_class_key : String :=
    match travel_class with
    | some tc => if tc != "" then pyStrip (pyReplaceHyphen (pyLower tc)) else "economy"
    | none => "economy"
  match lookupTC travel_class_key with
  | none =>
    (.ok (.obj [("error", .s (invalidTravelClassMsg (travel_class.getD "None")))]), [])
  | some travel_class_int =>
    let params : JObj :=
      [("engine", .s "google_flights"),
       ("departure_id", .s (pyUpper departure_airport)),
       ("arrival_id", .s (pyUpper arrival_airport)),
       ("outbound_date", .s departure_date),
       ("adults", .i passengers),
       ("travel_class", .i travel_class_int),
       ("hl", .s "en")]
    let params :=
      match return_date with
      | some rd =>
        if rd != "" then setKey (setKey params "return_date" (.s rd)) "type" (.s "1")
        else setKey params "type" (.s "2")
      | none => setKey params "type" (.s "2")
    let params :=
      match max_price with
      | some mp => if mp != 0 then setKey params "max_price" (.i mp) else params
      | none => params
    let params := addOptStr params "airline_name" airline_name
    let api_key := env "SERP_API_KEY"
    if optStrTruthy api_key = false then
      (.ok (.obj [("error", .s "SERP_API_KEY environment variable is required")]), [])
    else
      let params := setKey params "api_key" (.s (api_key.getD ""))
      let results := search_google params oracle
      let tryResult : Except String JVal :=
        if hasKey results "error" then
          .ok (.obj [("error", .s ("SerpAPI error: " ++ pyStr (jget results "error" .null)))])
        else
          let best_flights := jget results "best_flights" (.arr [])
          if pyTruthy best_flights = false then
            .ok (.obj [("message", .s "No flights found.")])
          else do
            let sliced ← jslice best_flights max_results
            let groups ← jiter sliced
            let parsed ← parse_flights groups
            Except.ok (.obj [("best_flights", .arr parsed)])
      match tryResult with
      | .ok v => (.ok v, [params])
      | .error e =>
        (.ok (.obj [("error", .s ("Error searching flights: " ++ e))]), [params])

/-- `get_stock_quote` (mcp_tools.py lines 146-168). -/
def get_stock_quote (q : String) (gl hl : Option String)
    (env : String → Option String) (ts : String) (oracle : Except String JObj) :
    Except String JVal × List JObj :=
  if pyStrip q == "" then
    (.ok (create_error_response ts q "Query cannot be empty" "stock_quote"), [])
  else
    let api_key := env "SERP_API_KEY"
    if optStrTruthy api_key = false then
      (.ok (create_error_response ts q "SERP_API_KEY not configured" "stock_quote"), [])
    else
      let params : JObj :=
        [("engine", .s "google_finance"), ("q", .s (normalize_query q)),
         ("api_key", .s (api_key.getD ""))]
      let params := addOptStr params "gl" gl
      let params := addOptStr params "hl" hl
      let data := search_google params oracle
      ((if hasKey data "error" then
          Except.ok (create_error_response ts q
            ("API Error: " ++ pyStr (jget data "error" .null)) "stock_quote")
        else
          Except.ok (create_success_response ts q (.obj data) "stock_quote")),
       [params])

/-- `valid_trends` of `get_market_data` (mcp_tools.py line 174). -/
def valid_trends : List String :=
  ["indexes", "most-active", "gainers", "losers", "climate-leaders",
   "cryptocurrencies", "currencies"]

/-- `get_market_data` (mcp_tools.py lines 171-194). -/
def get_market_data (trend : String) (gl hl : Option String)
    (env : String → Option String) (ts : String) (oracle : Except String JObj) :
    Except String JVal × List JObj :=
  if valid_trends.contains trend = false then
    (.ok (create_error_response ts trend
      ("Invalid trend \x27" ++ trend ++ "\x27. Valid trends: " ++
        String.intercalate ", " valid_trends) "market_data"), [])
  else
    let api_key := env "SERP_API_KEY"
    if optStrTruthy api_key = false then
      (.ok (create_error_response ts trend "SERP_API_KEY not configured" "market_data"), [])
    else
      let params : JObj :=
        [("engine", .s "google_finance_markets"), ("trend", .s trend),
         ("api_key", .s (api_key.getD ""))]
      let params := addOptStr params "gl" gl
      let params := addOptStr params "hl" hl
      let data := search_google params oracle
      ((if hasKey data "error" then
          Except.ok (create_error_response ts trend
            ("API Error: " ++ pyStr (jget data "error" .null)) "market_data")
        else
          Except.ok (create_success_response ts trend (.obj data) "market_data")),
       [params])

/-- `valid_periods` of the graph/comparison handlers (mcp_tools.py
lines 200 and 227). -/
def valid_periods : List String :=
  ["1d", "5d", "1m", "6m", "ytd", "1y", "5y", "max"]

/-- `get_graph_data` (mcp_tools.py lines 197-221). -/
def get_graph_data (q period : String) (gl hl : Option String)
    (env : String → Option String) (ts : String) (oracle : Except String JObj) :
    Except String JVal × List JObj :=
  if valid_periods.contains period = false then
    (.ok (create_error_response ts q
      ("Invalid period \x27" ++ period ++ "\x27. Valid periods: " ++
        String.intercalate ", " valid_periods) "graph_data"), [])
  else
    let api_key := env "SERP_API_KEY"
    if optStrTruthy api_key = false then
      (.ok (create_error_response ts q "SERP_API_KEY not configured" "graph_data"), [])
    else
      let params : JObj :=
        [("engine", .s "google_finance"), ("q", .s q), ("period", .s period),
         ("api_key", .s (api_key.getD ""))]
      let params := addOptStr params "gl" gl
      let params := addOptStr params "hl" hl
      let data := search_google params oracle
      ((if hasKey data "error" then
          Except.ok (create_error_response ts q
            ("API Error: " ++ pyStr (jget data "error" .null)) "graph_data")
        else
          Except.ok (create_success_response ts q (.obj data) "graph_data")),
       [params])

/-- `compare_stocks` (mcp_tools.py lines 224-248). -/
def compare_stocks (q period : String) (gl hl : Option String)
    (env : String → Option String) (ts : String) (oracle : Except String JObj) :
    Except String JVal × List JObj :=
  if valid_periods.contains period = false then
    (.ok (create_error_response ts q
      ("Invalid period \x27" ++ period ++ "\x27. Valid periods: " ++
        String.intercalate ", " valid_periods) "comparison"), [])
  else
    let api_key := env "SERP_API_KEY"
    if optStrTruthy api_key = false then
      (.ok (create_error_response ts q "SERP_API_KEY not configured" "comparison"), [])
    else
      let params : JObj :=
        [("engine", .s "google_finance"), ("q", .s q), ("period", .s period),
         ("api_key", .s (api_key.getD ""))]
      let params := addOptStr params "gl" gl
      let params := addOptStr params "hl" hl
      let data := search_google params oracle
      ((if hasKey data "error" then
          Except.ok (create_error_response ts q
            ("API Error: " ++ pyStr (jget data "error" .null)) "comparison")
        else
          Except.ok (create_success_response ts q (.obj data) "comparison")),
       [params])

/-- `valid_windows` of `get_financials` (mcp_tools.py line 254). -/
def valid_windows : List String := ["week", "month", "3month", "6month", "year"]

/-- `get_financials` (mcp_tools.py lines 251-276).  Note the source reads
its credential from the misspelled key `"SERP_API_K EY"` (line 257). -/
def get_financials (q : String) (window gl hl : Option String)
    (env : String → Option String) (ts : String) (oracle : Except String JObj) :
    Except String JVal × List JObj :=
  if (match window with
      | some w => w != "" && valid_windows.contains w = false
      | none => false) then
    (.ok (create_error_response ts q
      ("Invalid window \x27" ++ (window.getD "") ++ "\x27. Valid windows: " ++
        String.intercalate ", " valid_windows) "financials"), [])
  else
    let api_key := env "SERP_API_K EY"
    if optStrTruthy api_key = false then
      (.ok (create_error_response ts q "SERP_API_KEY not configured" "financials"), [])
    else
      let params : JObj :=
        [("engine", .s "google_finance"), ("q", .s q),
         ("api_key", .s (api_key.getD ""))]
      let params := addOptStr params "window" window
      let params := addOptStr params "gl" gl
      let params := addOptStr params "hl" hl
      let data := search_google params oracle
      ((if hasKey data "error" then
          Except.ok (create_error_response ts q
            ("API Error: " ++ pyStr (jget data "error" .null)) "financials")
        else
          Except.ok (create_success_response ts q (.obj data) "financials")),
       [params])

/-- `valid_categories` of `get_stock_news` (mcp_tools.py line 284). -/
def valid_categories : List String := ["all", "latest", "opinion", "press_releases"]

/-- `get_stock_news` (mcp_tools.py lines 279-310). -/
def get_stock_news (q : String) (category : Option String) (num : Int)
    (start : Option Int) (gl hl : Option String)
    (env : String → Option String) (ts : String) (oracle : Except String JObj) :
    Except String JVal × List JObj :=
  if num < 1 ∨ num > 100 then
    (.ok (create_error_response ts q
      "Number of news items must be between 1 and 100" "news"), [])
  else if (match category with
           | some c => c != "" && valid_categories.contains c = false
           | none => false) then
    (.ok (create_error_response ts q
      ("Invalid category \x27" ++ (category.getD "") ++ "\x27. Valid categories: " ++
        String.intercalate ", " valid_categories) "news"), [])
  else
    let api_key := env "SERP_API_KEY"
    if optStrTruthy api_key = false then
      (.ok (create_error_response ts q "SERP_API_KEY not configured" "news"), [])
    else
      let params : JObj :=
        [("engine", .s "google_finance"), ("q", .s q),
         ("api_key", .s (api_key.getD ""))]
      let params :=
        match category with
        | some c => if c != "" && c != "all" then setKey params "category" (.s c) else params
        | none => params
      let params := if num != 10 then setKey params "num" (.i num) else params
      let params :=
        match start with
        | some s0 => if s0 != 0 then setKey params "start" (.i s0) else params
        | none => params
      let params := addOptStr params "gl" gl
      let params := addOptStr params "hl" hl
      let data := search_google params oracle
      ((if hasKey data "error" then
          Except.ok (create_error_response ts q
            ("API Error: " ++ pyStr (jget data "error" .null)) "news")
        else
          Except.ok (create_success_response ts q (.obj data) "news")),
       [params])

/-- `debug_api_response` (mcp_tools.py lines 313-341). -/
def debug_api_response (q engine : String) (gl hl : Option String)
    (env : String → Option String) (ts : String) (oracle : Except String JObj) :
    Except String JVal × List JObj :=
  let api_key := env "SERP_API_KEY"
  if optStrTruthy api_key = false then
    (.ok (create_error_response ts q "SERP_API_KEY not configured" "debug"), [])
  else
    let params : JObj := [("engine", .s engine), ("api_key", .s (api_key.getD ""))]
    let params :=
      if engine == "google_finance" then setKey params "q" (.s q)
      else if engine == "google_finance_markets" then setKey params "trend" (.s q)
      else params
    let params := addOptStr params "gl" gl
    let params := addOptStr params "hl" hl
    let data := search_google params oracle
    ((if hasKey data "error" then
        Except.ok (create_error_response ts q
          ("Debug API Error: " ++ pyStr (jget data "error" .null)) "debug")
      else
        Except.ok (.obj [("tool", .s "debug"), ("query", .s q), ("engine", .s engine),
          ("timestamp", .s ts), ("success", .b true), ("api_response", .obj data)])),
     [params])

/-- `os.environ` holding only `SERP_API_KEY = k`. -/
def envWith (k : String) : String → Option String :=
  fun n => if n = "SERP_API_KEY" then some k else none

/-! ## Properties of the query normalizer -/

/-- Everything before the first colon. -/
def leftOfColon (l : List Char) : List Char :=
  l.takeWhile (fun c => c != ':')

/-- Everything after the first colon. -/
def rightOfColon (l : List Char) : List Char :=
  (l.dropWhile (fun c => c != ':')).tail

theorem splitCh_ne_nil (sep : Char) (l : List Char) : splitCh sep l ≠ [] := by
  induction l with
  | nil => simp [splitCh]
  | cons c cs ih =>
    rw [splitCh]
    split
    · simp
    · rcases h : splitCh sep cs with _ | ⟨p, ps⟩
      · exact absurd h ih
      · simp [h]

theorem splitCh_no_sep {l : List Char} (h : ':' ∉ l) : splitCh ':' l = [l] := by
  induction l with
  | nil => rfl
  | cons c cs ih =>
    have hc : ¬ c = ':' := fun hc => h (hc ▸ List.mem_cons_self c cs)
    have hcs : ':' ∉ cs := fun hm => h (List.mem_cons_of_mem c hm)
    rw [splitCh, if_neg hc, ih hcs]

theorem splitCh_single {l x : List Char} (h : splitCh ':' l = [x]) :
    l = x ∧ ':' ∉ x := by
  induction l generalizing x with
  | nil =>
    rw [splitCh] at h
    obtain rfl : ([] : List Char) = x := by simpa using h
    simp
  | cons c cs ih =>
    by_cases hc : c = ':'
    · rw [splitCh, if_pos hc] at h
      rcases hs : splitCh ':' cs with _ | ⟨p, ps⟩
      · exact absurd hs (splitCh_ne_nil _ _)
      · rw [hs] at h; simp at h
    · rw [splitCh, if_neg hc] at h
      rcases hs : splitCh ':' cs with _ | ⟨p, ps⟩
      · exact absurd hs (splitCh_ne_nil _ _)
      · rw [hs] at h
        simp only [List.cons.injEq] at h
        obtain ⟨rfl, rfl⟩ := h
        obtain ⟨hcs, hnp⟩ := ih hs
        subst hcs
        refine ⟨rfl, ?_⟩
        intro hm
        rcases List.mem_cons.mp hm with h1 | h1
        · exact hc h1.symm
        · exact hnp h1

theorem splitCh_pair {l p0 p1 : List Char} (h : splitCh ':' l = [p0, p1]) :
    l = p0 ++ ':' :: p1 ∧ ':' ∉ p0 ∧ ':' ∉ p1 := by
  induction l generalizing p0 with
  | nil => rw [splitCh] at h; simp at h
  | cons c cs ih =>
    by_cases hc : c = ':'
    · subst hc
      rw [splitCh, if_pos rfl] at h
      simp only [List.cons.injEq] at h
      obtain ⟨h0, hs⟩ := h
      obtain ⟨rfl, hn⟩ := splitCh_single hs
      subst h0
      simp [hn]
    · rw [splitCh, if_neg hc] at h
      rcases hs : splitCh ':' cs with _ | ⟨p, ps⟩
      · exact absurd hs (splitCh_ne_nil _ _)
      · rw [hs] at h
        simp only [List.cons.injEq] at h
        obtain ⟨rfl, rfl⟩ := h
        obtain ⟨hdec, hn0, hn1⟩ := ih hs
        refine ⟨?_, ?_, hn1⟩
        · rw [List.cons_append]
          exact congrArg (List.cons c) hdec
        · intro hm
          rcases List.mem_cons.mp hm with h1 | h1
          · exact hc h1.symm
          · exact hn0 h1

theorem splitCh_join {p0 p1 : List Char} (h0 : ':' ∉ p0) (h1 : ':' ∉ p1) :
    splitCh ':' (p0 ++ ':' :: p1) = [p0, p1] := by
  induction p0 with
  | nil =>
    rw [List.nil_append, splitCh, if_pos rfl, splitCh_no_sep h1]
  | cons c cs ih =>
    have hc : ¬ c = ':' := fun hc => h0 (hc ▸ List.mem_cons_self c cs)
    have hcs : ':' ∉ cs := fun hm => h0 (List.mem_cons_of_mem c hm)
    rw [List.cons_append, splitCh, if_neg hc, ih hcs]

theorem takeWhile_colon_append {R : List Char} (L : List Char) (h : ':' ∉ R) :
    (R ++ ':' :: L).takeWhile (fun c => c != ':') = R := by
  induction R with
  | nil => simp
  | cons c cs ih =>
    have hc : ¬ c = ':' := fun hc => h (hc ▸ List.mem_cons_self c cs)
    have hcs : ':' ∉ cs := fun hm => h (List.mem_cons_of_mem c hm)
    simp only [List.cons_append, List.takeWhile_cons]
    simp [hc, ih hcs]

theorem dropWhile_colon_append {R : List Char} (L : List Char) (h : ':' ∉ R) :
    (R ++ ':' :: L).dropWhile (fun c => c != ':') = ':' :: L := by
  induction R with
  | nil => simp
  | cons c cs ih =>
    have hc : ¬ c = ':' := fun hc => h (hc ▸ List.mem_cons_self c cs)
    have hcs : ':' ∉ cs := fun hm => h (List.mem_cons_of_mem c hm)
    simp only [List.cons_append, List.dropWhile_cons]
    simp [hc, ih hcs]

theorem rightOfColon_append {R : List Char} (L : List Char) (h : ':' ∉ R) :
    rightOfColon (R ++ ':' :: L) = L := by
  rw [rightOfColon, dropWhile_colon_append L h, List.tail_cons]

theorem count_one_decomp {l : List Char} (h : l.count ':' = 1) :
    ':' ∉ leftOfColon l ∧ ':' ∉ rightOfColon l ∧
      l = leftOfColon l ++ ':' :: rightOfColon l := by
  induction l with
  | nil => simp at h
  | cons c cs ih =>
    by_cases hc : c = ':'
    · subst hc
      have hcs : cs.count ':' = 0 := by
        have h2 := List.count_cons_self ':' cs
        omega
      have hmem : ':' ∉ cs := List.count_eq_zero.mp hcs
      refine ⟨?_, ?_, ?_⟩
      · simp [leftOfColon]
      · simpa [rightOfColon, List.dropWhile_cons] using hmem
      · simp [leftOfColon, rightOfColon, List.dropWhile_cons]
    · have hb : (c != ':') = true := bne_iff_ne.mpr hc
      have hcnt : cs.count ':' = 1 := by
        have h2 := List.count_cons ':' c cs
        rw [h] at h2
        simp only [beq_iff_eq, hc, if_false] at h2
        omega
      obtain ⟨h1, h2, h3⟩ := ih hcnt
      have hl : leftOfColon (c :: cs) = c :: leftOfColon cs := by
        simp [leftOfColon, List.takeWhile_cons, hb]
      have hr : rightOfColon (c :: cs) = rightOfColon cs := by
        simp [rightOfColon, List.dropWhile_cons, hb]
      refine ⟨?_, ?_, ?_⟩
      · rw [hl]
        intro hm
        rcases List.mem_cons.mp hm with hx | hx
        · exact hc hx.symm
        · exact h1 hx
      · rw [hr]; exact h2
      · rw [hl, hr, List.cons_append]
        exact congrArg (List.cons c) h3

/-- Characterization of the query normalizer: it swaps the two
colon-separated parts exactly when the input has exactly one colon and the
left part passes the Python `isupper()` test and contains no digit; on every
other input it is the identity. -/
theorem normalize_queryL_eq (l : List Char) :
    normalize_queryL l =
      if l.count ':' = 1 ∧ pyIsUpperL (leftOfColon l) = true ∧
          (leftOfColon l).any Char.isDigit = false
      then rightOfColon l ++ ':' :: leftOfColon l
      else l := by
  by_cases hc : l.count ':' = 1
  · obtain ⟨h0, h1, hdec⟩ := count_one_decomp hc
    have hsplit : splitCh ':' l = [leftOfColon l, rightOfColon l] := by
      conv_lhs => rw [hdec]
      exact splitCh_join h0 h1
    have hmem : ':' ∈ l := by
      rw [hdec]
      exact List.mem_append_right _ (List.mem_cons_self _ _)
    have hcont : l.contains ':' = true := by
      simpa [List.contains] using hmem
    rw [normalize_queryL, if_pos hcont, hsplit]
    rcases hup : pyIsUpperL (leftOfColon l) with _ | _ <;>
      rcases hdig : (leftOfColon l).any Char.isDigit with _ | _ <;>
      simp [hup, hdig, hc]
  · rw [if_neg (fun hx => hc hx.1)]
    by_cases hcont : l.contains ':' = true
    · rw [normalize_queryL, if_pos hcont]
      rcases e : splitCh ':' l with _ | ⟨p0, tl⟩
      · exact absurd e (splitCh_ne_nil _ _)
      · rcases tl with _ | ⟨p1, tl2⟩
        · rfl
        · rcases tl2 with _ | ⟨p2, tl3⟩
          · exfalso
            obtain ⟨hdec, hn0, hn1⟩ := splitCh_pair e
            apply hc
            simp [hdec, List.count_append, List.count_cons_self,
              List.count_eq_zero.mpr hn0, List.count_eq_zero.mpr hn1]
          · rfl
    · rw [normalize_queryL, if_neg hcont]

/-- The swap condition of claim C1, taken from its words: the left part is
entirely uppercase letters (hence nonempty and digit-free). -/
def claimSwapCond (p0 : List Char) : Bool :=
  !p0.isEmpty && p0.all Char.isUpper

/-- The Query Normalizer as claim C1 describes it (spec-side definition,
for comparison against `normalize_queryL`): swap when the input splits at
one colon with an entirely-uppercase-letters left part, identity
otherwise. -/
def normalize_query_claim (l : List Char) : List Char :=
  match splitCh ':' l with
  | [p0, p1] => if claimSwapCond p0 then p1 ++ ':' :: p0 else l
  | _ => l

/-- C1, counterexample: on `"A-B:X"` the left part `"A-B"` is not entirely
uppercase letters, so the claim predicts the input is returned unchanged;
the `"A-B".isupper()` test of the code is nevertheless true (`-` is uncased),
so `normalize_query` swaps and returns `"X:A-B"`. -/
theorem normalize_query_claim_counterexample :
    normalize_queryL "A-B:X".data = "X:A-B".data ∧
    normalize_query_claim "A-B:X".data = "A-B:X".data ∧
    "X:A-B".data ≠ "A-B:X".data :=
  ⟨by decide, by decide, by decide⟩

/-- C1 (amended): `normalize_query` swaps the two colon-separated parts
exactly when the input contains exactly one colon and the left part passes
the Python `isupper()` test (at least one cased character, no lowercase
character — uncased characters such as `-` are ignored) and contains no
digit; every other input is returned unchanged.  `get_stock_quote`
dispatches the normalized query: `q = "NASDAQ:AAPL"` is sent as
`"AAPL:NASDAQ"`. -/
theorem normalize_query_swap_characterization :
    (∀ l : List Char, normalize_queryL l =
        if l.count ':' = 1 ∧ pyIsUpperL (leftOfColon l) = true ∧
            (leftOfColon l).any Char.isDigit = false
        then rightOfColon l ++ ':' :: leftOfColon l
        else l) ∧
    (∀ ts oracle, (get_stock_quote "NASDAQ:AAPL" none none (envWith "K") ts oracle).2 =
        [[("engine", JVal.s "google_finance"), ("q", JVal.s "AAPL:NASDAQ"),
          ("api_key", JVal.s "K")]]) :=
  ⟨normalize_queryL_eq, fun _ _ => rfl⟩

/-- C2, counterexample: the Query Normalizer is not idempotent.
`"NASDAQ:AAPL"` normalizes to `"AAPL:NASDAQ"`, whose left part `"AAPL"` is
itself uppercase and digit-free, so a second pass swaps it back. -/
theorem normalize_query_not_idempotent :
    normalize_queryL (normalize_queryL "NASDAQ:AAPL".data) ≠
      normalize_queryL "NASDAQ:AAPL".data := by decide

/-- C2 (amended): a second application of the Query Normalizer either
undoes the first swap or changes nothing — `f (f s)` is always `s` or
`f s` — and consequently a third application equals a single one
(`f ∘ f ∘ f = f`); full idempotence fails (see the counterexample). -/
theorem normalize_query_double_application (l : List Char) :
    (normalize_queryL (normalize_queryL l) = l ∨
      normalize_queryL (normalize_queryL l) = normalize_queryL l) ∧
    normalize_queryL (normalize_queryL (normalize_queryL l)) = normalize_queryL l := by
  by_cases hcond : l.count ':' = 1 ∧ pyIsUpperL (leftOfColon l) = true ∧
      (leftOfColon l).any Char.isDigit = false
  · obtain ⟨hc, hup, hdig⟩ := hcond
    obtain ⟨h0, h1, hdec⟩ := count_one_decomp hc
    have hf : normalize_queryL l = rightOfColon l ++ ':' :: leftOfColon l := by
      rw [normalize_queryL_eq, if_pos ⟨hc, hup, hdig⟩]
    have hcnt' : (rightOfColon l ++ ':' :: leftOfColon l).count ':' = 1 := by
      simp [List.count_append, List.count_cons_self,
        List.count_eq_zero.mpr h0, List.count_eq_zero.mpr h1]
    have hleft' : leftOfColon (rightOfColon l ++ ':' :: leftOfColon l) = rightOfColon l :=
      takeWhile_colon_append _ h1
    have hright' : rightOfColon (rightOfColon l ++ ':' :: leftOfColon l) = leftOfColon l :=
      rightOfColon_append _ h1
    have key' := normalize_queryL_eq (rightOfColon l ++ ':' :: leftOfColon l)
    rw [hleft', hright', hcnt'] at key'
    by_cases hcond' : pyIsUpperL (rightOfColon l) = true ∧
        (rightOfColon l).any Char.isDigit = false
    · rw [if_pos ⟨rfl, hcond'.1, hcond'.2⟩] at key'
      have hdouble : normalize_queryL (normalize_queryL l) = l := by
        rw [hf, key', ← hdec]
      refine ⟨Or.inl hdouble, ?_⟩
      rw [hdouble]
    · have : ¬ ((1 : Nat) = 1 ∧ pyIsUpperL (rightOfColon l) = true ∧
          (rightOfColon l).any Char.isDigit = false) := fun hx => hcond' ⟨hx.2.1, hx.2.2⟩
      rw [if_neg this] at key'
      have hdouble : normalize_queryL (normalize_queryL l) = normalize_queryL l := by
        rw [hf, key']
      exact ⟨Or.inr hdouble, by rw [hdouble, hdouble]⟩
  · have h1 : normalize_queryL l = l := by rw [normalize_queryL_eq, if_neg hcond]
    exact ⟨Or.inl (by rw [h1, h1]), by rw [h1, h1, h1]⟩

/-! ## The response envelope invariant -/

/-- The `success` field of an envelope is a boolean equal to `bv`. -/
def successMatches (o : JObj) (bv : Bool) : Bool :=
  match jlookup o "success" with
  | some (.b x) => x == bv
  | _ => false

/-- An envelope is well-formed when exactly one of `api_response`/`error`
is present and `success` is `true` exactly when `api_response` is. -/
def envelopeOK : JVal → Bool
  | .obj o => (hasKey o "api_response" != hasKey o "error") &&
      successMatches o (hasKey o "api_response")
  | _ => false

/-- A handler result is a returned (not raised) well-formed envelope. -/
def resultEnvOK : Except String JVal × List JObj → Bool
  | (.ok v, _) => envelopeOK v
  | (.error _, _) => false

theorem get_stock_quote_envOK (q : String) (gl hl : Option String)
    (env : String → Option String) (ts : String) (oracle : Except String JObj) :
    resultEnvOK (get_stock_quote q gl hl env ts oracle) = true := by
  unfold get_stock_quote
  repeat' first
    | dsimp only
    | split
  all_goals rfl

theorem get_market_data_envOK (trend : String) (gl hl : Option String)
    (env : String → Option String) (ts : String) (oracle : Except String JObj) :
    resultEnvOK (get_market_data trend gl hl env ts oracle) = true := by
  unfold get_market_data
  repeat' first
    | dsimp only
    | split
  all_goals rfl

theorem get_graph_data_envOK (q period : String) (gl hl : Option String)
    (env : String → Option String) (ts : String) (oracle : Except String JObj) :
    resultEnvOK (get_graph_data q period gl hl env ts oracle) = true := by
  unfold get_graph_data
  repeat' first
    | dsimp only
    | split
  all_goals rfl

theorem compare_stocks_envOK (q period : String) (gl hl : Option String)
    (env : String → Option String) (ts : String) (oracle : Except String JObj) :
    resultEnvOK (compare_stocks q period gl hl env ts oracle) = true := by
  unfold compare_stocks
  repeat' first
    | dsimp only
    | split
  all_goals rfl

theorem get_financials_envOK (q : String) (window gl hl : Option String)
    (env : String → Option String) (ts : String) (oracle : Except String JObj) :
    resultEnvOK (get_financials q window gl hl env ts oracle) = true := by
  unfold get_financials
  repeat' first
    | dsimp only
    | split
  all_goals rfl

theorem get_stock_news_envOK (q : String) (category : Option String) (num : Int)
    (start : Option Int) (gl hl : Option String)
    (env : String → Option String) (ts : String) (oracle : Except String JObj) :
    resultEnvOK (get_stock_news q category num start gl hl env ts oracle) = true := by
  unfold get_stock_news
  repeat' first
    | dsimp only
    | split
  all_goals rfl

theorem debug_api_response_envOK (q engine : String) (gl hl : Option String)
    (env : String → Option String) (ts : String) (oracle : Except String JObj) :
    resultEnvOK (debug_api_response q engine gl hl env ts oracle) = true := by
  unfold debug_api_response
  repeat' first
    | dsimp only
    | split
  all_goals rfl

theorem google_flights_returns (departure_airport arrival_airport departure_date : String)
    (return_date airline_name travel_class : Option String)
    (max_price : Option Int) (max_results : Nat) (passengers : Option Int)
    (env : String → Option String) (ts : String) (oracle : Except String JObj) :
    ∃ v, (google_flights departure_airport arrival_airport departure_date
      return_date airline_name travel_class max_price max_results passengers
      env ts oracle).1 = .ok v := by
  unfold google_flights
  repeat' first
    | dsimp only
    | split
  all_goals exact ⟨_, rfl⟩

theorem resultEnvOK_returns {r : Except String JVal × List JObj}
    (h : resultEnvOK r = true) : ∃ v, r.1 = .ok v := by
  rcases r with ⟨e, calls⟩
  cases e with
  | ok v => exact ⟨v, rfl⟩
  | error e => simp [resultEnvOK] at h

/-- C3, counterexample: `google_flights` returns values that are not
envelopes at all.  With an upstream payload lacking `best_flights` it
returns the bare object `{"message": "No flights found."}`, which has
neither `api_response` nor `error` and no `success` field. -/
theorem tool_handler_non_envelope_counterexample :
    (google_flights "JFK" "LAX" "2025-06-01" none none (some "economy")
        none 5 (some 1) (envWith "K") "T" (.ok [])).1 =
      .ok (.obj [("message", .s "No flights found.")]) ∧
    resultEnvOK (google_flights "JFK" "LAX" "2025-06-01" none none (some "economy")
        none 5 (some 1) (envWith "K") "T" (.ok [])) = false :=
  ⟨by rfl, by rfl⟩

/-- C3 (amended): every envelope built by `create_error_response` or
`create_success_response` contains exactly one of `api_response`/`error`
with `success` matching, and every value returned by the seven finance
handlers (`get_stock_quote`, `get_market_data`, `get_graph_data`,
`compare_stocks`, `get_financials`, `get_stock_news`,
`debug_api_response`) is such an envelope; `google_flights`, however,
returns bare non-envelope objects (see the counterexample), so the
invariant does not extend to every value returned by every tool
handler. -/
theorem response_envelope_invariant :
    (∀ ts q e t, envelopeOK (create_error_response ts q e t) = true) ∧
    (∀ ts q d t, envelopeOK (create_success_response ts q d t) = true) ∧
    (∀ q gl hl env ts oracle,
      resultEnvOK (get_stock_quote q gl hl env ts oracle) = true) ∧
    (∀ trend gl hl env ts oracle,
      resultEnvOK (get_market_data trend gl hl env ts oracle) = true) ∧
    (∀ q period gl hl env ts oracle,
      resultEnvOK (get_graph_data q period gl hl env ts oracle) = true) ∧
    (∀ q period gl hl env ts oracle,
      resultEnvOK (compare_stocks q period gl hl env ts oracle) = true) ∧
    (∀ q window gl hl env ts oracle,
      resultEnvOK (get_financials q window gl hl env ts oracle) = true) ∧
    (∀ q category num start gl hl env ts oracle,
      resultEnvOK (get_stock_news q category num start gl hl env ts oracle) = true) ∧
    (∀ q engine gl hl env ts oracle,
      resultEnvOK (debug_api_response q engine gl hl env ts oracle) = true) :=
  ⟨fun _ _ _ _ => rfl, fun _ _ _ _ => rfl,
   get_stock_quote_envOK, get_market_data_envOK, get_graph_data_envOK,
   compare_stocks_envOK, get_financials_envOK, get_stock_news_envOK,
   debug_api_response_envOK⟩

/-- C9: no failure propagates as an exception past a tool handler
boundary: for every input, every environment and every gateway outcome
(including a raised transport exception, `oracle = .error e`), each of the
eight tool handlers returns a value (`Except.ok`), never an uncaught
exception. -/
theorem handlers_never_raise (departure_airport arrival_airport departure_date : String)
    (return_date airline_name travel_class : Option String)
    (max_price : Option Int) (max_results : Nat) (passengers : Option Int)
    (q trend period engine : String) (window category gl hl : Option String)
    (num : Int) (start : Option Int)
    (env : String → Option String) (ts : String) (oracle : Except String JObj) :
    (∃ v, (google_flights departure_airport arrival_airport departure_date
      return_date airline_name travel_class max_price max_results passengers
      env ts oracle).1 = .ok v) ∧
    (∃ v, (get_stock_quote q gl hl env ts oracle).1 = .ok v) ∧
    (∃ v, (get_market_data trend gl hl env ts oracle).1 = .ok v) ∧
    (∃ v, (get_graph_data q period gl hl env ts oracle).1 = .ok v) ∧
    (∃ v, (compare_stocks q period gl hl env ts oracle).1 = .ok v) ∧
    (∃ v, (get_financials q window gl hl env ts oracle).1 = .ok v) ∧
    (∃ v, (get_stock_news q category num start gl hl env ts oracle).1 = .ok v) ∧
    (∃ v, (debug_api_response q engine gl hl env ts oracle).1 = .ok v) :=
  ⟨google_flights_returns _ _ _ _ _ _ _ _ _ _ _ _,
   resultEnvOK_returns (get_stock_quote_envOK _ _ _ _ _ _),
   resultEnvOK_returns (get_market_data_envOK _ _ _ _ _ _),
   resultEnvOK_returns (get_graph_data_envOK _ _ _ _ _ _ _),
   resultEnvOK_returns (compare_stocks_envOK _ _ _ _ _ _ _),
   resultEnvOK_returns (get_financials_envOK _ _ _ _ _ _ _),
   resultEnvOK_returns (get_stock_news_envOK _ _ _ _ _ _ _ _ _),
   resultEnvOK_returns (debug_api_response_envOK _ _ _ _ _ _ _)⟩

/-! ## Order and length of the flight parse -/

/-- The entry `k` of a dict is absent or its value satisfies `p`. -/
def fieldOK (o : JObj) (k : String) (p : JVal → Bool) : Bool :=
  match jlookup o k with
  | none => true
  | some v => p v

/-- The `time` entry of an airport dict is absent, `None`, or a string;
when non-empty (truthy) the string contains a non-whitespace character
(so `departure_time.split()[0]` succeeds). -/
def timeFieldOK (a : JObj) : Bool :=
  match jlookup a "time" with
  | none => true
  | some .null => true
  | some (.s str) => if str != "" then !(pySplitWhitespace str).isEmpty else true
  | some _ => false

/-- The airport entry `k` of a leg is absent or a dict whose `id`/`name`
are absent-or-string and whose `time` is usable (for the departure
airport, additionally splittable when truthy). -/
def airportOK (leg : JObj) (k : String) (checkTime : Bool) : Bool :=
  match jlookup leg k with
  | none => true
  | some (.obj a) =>
    fieldOK a "id" pydOptStr && fieldOK a "name" pydOptStr &&
      (if checkTime then timeFieldOK a else fieldOK a "time" pydOptStr)
  | some _ => false

/-- All fields the parser reads from the group dict `o` and its first leg
`leg` are absent or of the declared `FlightDetails` types, the airport
entries are well-formed, and the remaining legs are dicts (they are
revalidated as the `legs` field). -/
def groupFieldsOK (o leg : JObj) (restLegs : List JVal) : Bool :=
  restLegs.all (fun v => match v with | .obj _ => true | _ => false) &&
  airportOK leg "departure_airport" true &&
  airportOK leg "arrival_airport" false &&
  fieldOK leg "airline" pydOptStr &&
  fieldOK leg "flight_number" pydOptStr &&
  fieldOK leg "airplane" pydOptStr &&
  fieldOK leg "travel_class" pydOptStr &&
  fieldOK leg "duration" pydOptInt &&
  fieldOK leg "legroom" pydOptStr &&
  fieldOK leg "overnight" pydOptBool &&
  fieldOK leg "ticket_also_sold_by" pydOptListStr &&
  fieldOK leg "extensions" pydOptListStr &&
  fieldOK o "price" pydOptFloat &&
  fieldOK o "departure_date" pydOptStr &&
  fieldOK o "return_date" pydOptStr &&
  fieldOK o "passenger" pydOptInt &&
  fieldOK o "total_duration" pydOptInt &&
  fieldOK o "carbon_emissions" pydOptDict

/-- A well-formed itinerary group: a dict whose `flights` entry is a
nonempty list of dicts, and whose fields (and those of its first leg) are
absent or of the declared `FlightDetails` types, so that the pydantic
construction succeeds.  Such a group always yields exactly one flattened
record. -/
def wellFormedGroup (g : JVal) : Bool :=
  match g with
  | .obj o =>
    match jlookup o "flights" with
    | some (.arr (JVal.obj leg :: restLegs)) => groupFieldsOK o leg restLegs
    | _ => false
  | _ => false

theorem exceptOkBind {α β : Type} (a : α) (f : α → Except String β) :
    (Except.ok a : Except String α) >>= f = f a := rfl

theorem wellFormedGroup_inv {g : JVal} (h : wellFormedGroup g = true) :
    ∃ o leg rest, g = .obj o ∧
      jlookup o "flights" = some (.arr (JVal.obj leg :: rest)) ∧
      groupFieldsOK o leg rest = true := by
  rcases g with _ | bv | n | str | xs | o
  · simp [wellFormedGroup] at h
  · simp [wellFormedGroup] at h
  · simp [wellFormedGroup] at h
  · simp [wellFormedGroup] at h
  · simp [wellFormedGroup] at h
  · rcases hlook : jlookup o "flights" with _ | v
    · simp [wellFormedGroup, hlook] at h
    · rcases v with _ | bv | n | str | xs | o2
      · simp [wellFormedGroup, hlook] at h
      · simp [wellFormedGroup, hlook] at h
      · simp [wellFormedGroup, hlook] at h
      · simp [wellFormedGroup, hlook] at h
      · rcases xs with _ | ⟨l0, rest⟩
        · simp [wellFormedGroup, hlook] at h
        · rcases l0 with _ | bv | n | str | legArr | leg
          · simp [wellFormedGroup, hlook] at h
          · simp [wellFormedGroup, hlook] at h
          · simp [wellFormedGroup, hlook] at h
          · simp [wellFormedGroup, hlook] at h
          · simp [wellFormedGroup, hlook] at h
          · simp only [wellFormedGroup, hlook] at h
            exact ⟨o, leg, rest, rfl, hlook, h⟩
      · simp [wellFormedGroup, hlook] at h

theorem airportOK_inv {leg : JObj} {k : String} {ct : Bool}
    (h : airportOK leg k ct = true) :
    ∃ a : JObj, jget leg k (.obj []) = .obj a ∧
      fieldOK a "id" pydOptStr = true ∧ fieldOK a "name" pydOptStr = true ∧
      (if ct then timeFieldOK a else fieldOK a "time" pydOptStr) = true := by
  unfold airportOK at h
  split at h
  · rename_i hl
    refine ⟨[], by simp [jget, hl], rfl, rfl, ?_⟩
    cases ct <;> rfl
  · rename_i a hl
    simp only [Bool.and_eq_true] at h
    exact ⟨a, by simp [jget, hl], h.1.1, h.1.2, h.2⟩
  · simp at h

theorem fieldOK_get {o : JObj} {k : String} {p : JVal → Bool} (d : JVal)
    (h : fieldOK o k p = true) (hd : p d = true) : p (jget o k d) = true := by
  unfold fieldOK at h
  unfold jget
  rcases hl : jlookup o k with _ | v
  · simpa using hd
  · rw [hl] at h
    simpa using h

theorem pyTruthy_arr_cons (x : JVal) (xs : List JVal) :
    pyTruthy (.arr (x :: xs)) = true := rfl

theorem pydOptStr_s (t : String) : pydOptStr (.s t) = true := rfl

theorem exceptPureBind {α β : Type} (a : α) (f : α → Except String β) :
    (pure a : Except String α) >>= f = f a := rfl

theorem parseGroup_wf {g : JVal} (h : wellFormedGroup g = true) :
    ∃ r, parseGroup g = Except.ok (some r) := by
  obtain ⟨o, leg, rest, rfl, hlook, hflds⟩ := wellFormedGroup_inv h
  simp only [groupFieldsOK, Bool.and_eq_true] at hflds
  obtain ⟨⟨⟨⟨⟨⟨⟨⟨⟨⟨⟨⟨⟨⟨⟨⟨⟨hrest, hdep⟩, harr⟩, hairline⟩, hfnum⟩, hairplane⟩, htclass⟩, hduration⟩, hlegroom⟩, hovernight⟩, htasb⟩, hext⟩, hprice⟩, hdd⟩, hrd⟩, hpass⟩, htd⟩, hce⟩ := hflds
  obtain ⟨da, hda, hda_id, hda_name, hda_time⟩ := airportOK_inv hdep
  obtain ⟨aa, haa, haa_id, haa_name, haa_time⟩ := airportOK_inv harr
  have hdt' : timeFieldOK da = true := by simpa using hda_time
  have harrt : fieldOK aa "time" pydOptStr = true := by simpa using haa_time
  have f_da_id : pydOptStr (jget da "id" JVal.null) = true :=
    fieldOK_get JVal.null hda_id rfl
  have f_da_name : pydOptStr (jget da "name" JVal.null) = true :=
    fieldOK_get JVal.null hda_name rfl
  have f_aa_id : pydOptStr (jget aa "id" JVal.null) = true :=
    fieldOK_get JVal.null haa_id rfl
  have f_aa_name : pydOptStr (jget aa "name" JVal.null) = true :=
    fieldOK_get JVal.null haa_name rfl
  have f_aa_time : pydOptStr (jget aa "time" (JVal.s "")) = true :=
    fieldOK_get (JVal.s "") harrt rfl
  have f_airline : pydOptStr (jget leg "airline" JVal.null) = true :=
    fieldOK_get JVal.null hairline rfl
  have f_fnum : pydOptStr (jget leg "flight_number" JVal.null) = true :=
    fieldOK_get JVal.null hfnum rfl
  have f_airplane : pydOptStr (jget leg "airplane" JVal.null) = true :=
    fieldOK_get JVal.null hairplane rfl
  have f_tclass : pydOptStr (jget leg "travel_class" JVal.null) = true :=
    fieldOK_get JVal.null htclass rfl
  have f_duration : pydOptInt (jget leg "duration" JVal.null) = true :=
    fieldOK_get JVal.null hduration rfl
  have f_legroom : pydOptStr (jget leg "legroom" JVal.null) = true :=
    fieldOK_get JVal.null hlegroom rfl
  have f_overnight : pydOptBool (jget leg "overnight" JVal.null) = true :=
    fieldOK_get JVal.null hovernight rfl
  have f_tasb : pydOptListStr (jget leg "ticket_also_sold_by" JVal.null) = true :=
    fieldOK_get JVal.null htasb rfl
  have f_ext : pydOptListStr (jget leg "extensions" JVal.null) = true :=
    fieldOK_get JVal.null hext rfl
  have f_price : pydOptFloat (jget o "price" JVal.null) = true :=
    fieldOK_get JVal.null hprice rfl
  have f_dd : pydOptStr (jget o "departure_date" JVal.null) = true :=
    fieldOK_get JVal.null hdd rfl
  have f_rd : pydOptStr (jget o "return_date" JVal.null) = true :=
    fieldOK_get JVal.null hrd rfl
  have f_pass : pydOptInt (jget o "passenger" (JVal.i 1)) = true :=
    fieldOK_get (JVal.i 1) hpass rfl
  have f_td : pydOptInt (jget o "total_duration" JVal.null) = true :=
    fieldOK_get JVal.null htd rfl
  have f_ce : pydOptDict (jget o "carbon_emissions" JVal.null) = true :=
    fieldOK_get JVal.null hce rfl
  have f_legs : pydOptListDict (jget o "flights" JVal.null) = true := by
    unfold jget
    rw [hlook]
    simpa [pydOptListDict] using hrest
  have hov : jget o "flights" (JVal.arr []) = JVal.arr (JVal.obj leg :: rest) := by
    simp [jget, hlook]
  unfold parseGroup
  simp only [jgetE, exceptOkBind, exceptPureBind, hov, jindex0, hda, haa,
    pyTruthy_arr_cons]
  rw [if_neg (by simp)]
  rcases ht : jlookup da "time" with _ | v
  · rw [show jget da "time" (JVal.s "") = JVal.s "" by simp [jget, ht]]
    rw [if_neg (by simp [pyTruthy])]
    split
    · exact ⟨_, rfl⟩
    · rename_i hC
      exfalso
      apply hC
      simp only [f_da_id, f_da_name, f_aa_id, f_aa_name, f_aa_time, f_airline,
        f_fnum, f_airplane, f_tclass, f_duration, f_legroom, f_overnight,
        f_tasb, f_ext, f_price, f_dd, f_rd, f_pass, f_td, f_ce, f_legs,
        pydOptStr_s, Bool.true_and]
  · rw [show jget da "time" (JVal.s "") = v by simp [jget, ht]]
    by_cases htr : pyTruthy v = true
    · unfold timeFieldOK at hdt'
      simp only [ht] at hdt'
      rcases v with _ | bv | n | str | xs | o2
      · simp [pyTruthy] at htr
      · simp at hdt'
      · simp at hdt'
      · have hs : (str != "") = true := by simpa [pyTruthy] using htr
        simp only [hs, eq_self_iff_true, if_true] at hdt'
        rcases hsw : pySplitWhitespace str with _ | ⟨p, ps⟩
        · simp [hsw] at hdt'
        · rw [if_pos htr]
          simp only [pyStrSplit, hsw, exceptOkBind, exceptPureBind]
          split
          · exact ⟨_, rfl⟩
          · rename_i hC
            exfalso
            apply hC
            simp only [f_da_id, f_da_name, f_aa_id, f_aa_name, f_aa_time,
              f_airline, f_fnum, f_airplane, f_tclass, f_duration, f_legroom,
              f_overnight, f_tasb, f_ext, f_price, f_rd, f_pass, f_td, f_ce,
              f_legs, pydOptStr_s, Bool.true_and]
      · simp at hdt'
      · simp at hdt'
    · have hpv : pydOptStr v = true := by
        unfold timeFieldOK at hdt'
        simp only [ht] at hdt'
        rcases v with _ | bv | n | str | xs | o2 <;> simp_all [pydOptStr]
      rw [if_neg htr]
      split
      · exact ⟨_, rfl⟩
      · rename_i hC
        exfalso
        apply hC
        simp only [f_da_id, f_da_name, f_aa_id, f_aa_name, f_aa_time, f_airline,
          f_fnum, f_airplane, f_tclass, f_duration, f_legroom, f_overnight,
          f_tasb, f_ext, f_price, f_dd, f_rd, f_pass, f_td, f_ce, f_legs,
          hpv, pydOptStr_s, Bool.true_and]

theorem parse_flights_wf {l : List JVal} (h : ∀ g ∈ l, wellFormedGroup g = true) :
    ∃ out, parse_flights l = .ok out ∧ out.length = l.length ∧
      ∀ i (hi : i < l.length) (ho : i < out.length),
        parseGroup (l.get ⟨i, hi⟩) = .ok (some (out.get ⟨i, ho⟩)) := by
  induction l with
  | nil => exact ⟨[], rfl, rfl, fun i hi => absurd hi (by simp)⟩
  | cons g gs ih =>
    obtain ⟨r, hr⟩ := parseGroup_wf (h g (List.mem_cons_self g gs))
    obtain ⟨out, hout, hlen, hpt⟩ := ih (fun x hx => h x (List.mem_cons_of_mem g hx))
    refine ⟨r :: out, ?_, by simp [hlen], ?_⟩
    · unfold parse_flights
      rw [hr, hout]
      try rfl
    · intro i hi ho
      cases i with
      | zero => simpa using hr
      | succ n =>
        simpa using hpt n (by simpa using hi) (by simpa using ho)

/-- C4, counterexample: the cap is applied before zero-leg groups are
skipped.  With two upstream groups — the first with no legs, the second
with one leg — and `max_results = 1`, the flight search returns zero
records, although the claim (zero-leg groups do not count toward the cap)
demands one: the one-leg group alone parses to exactly one record. -/
theorem parse_flights_cap_counterexample :
    (google_flights "JFK" "LAX" "2025-06-01" none none (some "economy") none 1 (some 1)
        (envWith "K") "T"
        (.ok [("best_flights",
          .arr [JVal.obj [], JVal.obj [("flights", JVal.arr [JVal.obj []])]])])).1 =
      .ok (.obj [("best_flights", .arr [])]) ∧
    (parse_flights [JVal.obj [("flights", JVal.arr [JVal.obj []])]]).toOption.map
        List.length = some 1 :=
  ⟨by rfl, by rfl⟩

/-- C4 (amended): the flight search parses `groups.take N` (the cap is
applied *before* parsing, so zero-leg groups among the first `N` consume
capacity).  For every list of well-formed groups — all with at least one
leg, all legs dicts, and every field read by the parser absent or of its
declared `FlightDetails` type, so that neither the `split()[0]` indexing
nor the pydantic construction-time validation raises — and every
requested maximum `N`, the output has exactly `min N K` records, in input
order: the `i`-th record is the flattened form of the `i`-th kept
group. -/
theorem parse_flights_take_min (groups : List JVal) (N : Nat)
    (h : ∀ g ∈ groups, wellFormedGroup g = true) :
    ∃ out, parse_flights (groups.take N) = .ok out ∧
      out.length = min N groups.length ∧
      ∀ i (hi : i < (groups.take N).length) (ho : i < out.length),
        parseGroup ((groups.take N).get ⟨i, hi⟩) = .ok (some (out.get ⟨i, ho⟩)) := by
  obtain ⟨out, h1, h2, h3⟩ :=
    parse_flights_wf (fun g hg => h g (List.take_subset N groups hg))
  exact ⟨out, h1, by rw [h2, List.length_take], h3⟩

/-- Witness for the C4 theorem at a concrete one-group input with `N = 1`. -/
theorem parse_flights_take_min_witness :
    ∃ out, parse_flights (([JVal.obj [("flights", JVal.arr [JVal.obj []])]]).take 1) =
        .ok out ∧
      out.length = min 1 [JVal.obj [("flights", JVal.arr [JVal.obj []])]].length ∧
      ∀ i (hi : i < (([JVal.obj [("flights", JVal.arr [JVal.obj []])]]).take 1).length)
        (ho : i < out.length),
        parseGroup ((([JVal.obj [("flights", JVal.arr [JVal.obj []])]]).take 1).get ⟨i, hi⟩) =
          .ok (some (out.get ⟨i, ho⟩)) :=
  parse_flights_take_min [JVal.obj [("flights", JVal.arr [JVal.obj []])]] 1 (by decide)

/-! ## The one-way flight-search scenario -/

theorem google_flights_oneway_eval (k ts : String) (payload : JObj)
    (hk : (k != "") = true) (he : hasKey payload "error" = false)
    (hb : jlookup payload "best_flights" = none) :
    google_flights "jfk" "lax" "2025-06-01" none none (some "economy") none 5 (some 1)
        (envWith k) ts (.ok payload) =
      (.ok (.obj [("message", .s "No flights found.")]),
       [[("engine", .s "google_flights"), ("departure_id", .s "JFK"),
         ("arrival_id", .s "LAX"), ("outbound_date", .s "2025-06-01"),
         ("adults", .i 1), ("travel_class", .i 1), ("hl", .s "en"),
         ("type", .s "2"), ("api_key", .s k)]]) := by
  have hne : jlookup payload "error" = none := by
    rcases hj : jlookup payload "error" with _ | v
    · rfl
    · rw [hasKey, hj] at he; simp at he
  unfold google_flights
  simp only [envWith, optStrTruthy, search_google, hasKey, jget, hne, hb, hk,
    if_true, if_false, Option.isSome_none, Option.getD_none,
    Bool.true_eq_false, Bool.false_eq_true, pyTruthy, List.isEmpty_nil,
    Bool.not_true]
  rfl

/-- C5: calling `google_flights` with departure "jfk", arrival "lax",
departure date "2025-06-01", no return date and default arguments builds a
parameter map containing `type="2"`, `travel_class=1`, `adults=1` and the
uppercased airport codes JFK/LAX; and whenever the (non-error) upstream
payload has no `best_flights` entry the handler returns exactly
`{"message": "No flights found."}` — not an error and not an empty
success. -/
theorem google_flights_oneway_scenario (k ts : String) (payload : JObj)
    (hk : (k != "") = true) (he : hasKey payload "error" = false)
    (hb : jlookup payload "best_flights" = none) :
    (google_flights "jfk" "lax" "2025-06-01" none none (some "economy") none 5 (some 1)
        (envWith k) ts (.ok payload)).1 =
      .ok (.obj [("message", .s "No flights found.")]) ∧
    ∃ p, (google_flights "jfk" "lax" "2025-06-01" none none (some "economy") none 5 (some 1)
        (envWith k) ts (.ok payload)).2 = [p] ∧
      jlookup p "type" = some (.s "2") ∧ jlookup p "travel_class" = some (.i 1) ∧
      jlookup p "adults" = some (.i 1) ∧ jlookup p "departure_id" = some (.s "JFK") ∧
      jlookup p "arrival_id" = some (.s "LAX") := by
  rw [google_flights_oneway_eval k ts payload hk he hb]
  exact ⟨rfl, _, rfl, rfl, rfl, rfl, rfl, rfl⟩

/-- Witness for the C5 theorem at `k = "K"`, `ts = "T"`, payload `{}`. -/
theorem google_flights_oneway_scenario_witness :
    (google_flights "jfk" "lax" "2025-06-01" none none (some "economy") none 5 (some 1)
        (envWith "K") "T" (.ok [])).1 =
      .ok (.obj [("message", .s "No flights found.")]) ∧
    ∃ p, (google_flights "jfk" "lax" "2025-06-01" none none (some "economy") none 5 (some 1)
        (envWith "K") "T" (.ok [])).2 = [p] ∧
      jlookup p "type" = some (.s "2") ∧ jlookup p "travel_class" = some (.i 1) ∧
      jlookup p "adults" = some (.i 1) ∧ jlookup p "departure_id" = some (.s "JFK") ∧
      jlookup p "arrival_id" = some (.s "LAX") :=
  google_flights_oneway_scenario "K" "T" [] rfl rfl rfl

/-- C6: for every call to `get_stock_news` with a count outside `[1,100]`
the handler returns the validation error citing the 1-to-100 bound and
makes no gateway call, whatever the other arguments, environment and
gateway outcome. -/
theorem get_stock_news_count_validation (q : String) (category : Option String)
    (num : Int) (start : Option Int) (gl hl : Option String)
    (env : String → Option String) (ts : String) (oracle : Except String JObj)
    (h : num < 1 ∨ num > 100) :
    get_stock_news q category num start gl hl env ts oracle =
      (.ok (create_error_response ts q
        "Number of news items must be between 1 and 100" "news"), []) := by
  unfold get_stock_news
  rw [if_pos h]

/-- Witness for the C6 theorem at `num = 150`. -/
theorem get_stock_news_count_validation_witness :
    get_stock_news "AAPL" none 150 none none none (envWith "K") "T" (.ok []) =
      (.ok (create_error_response "T" "AAPL"
        "Number of news items must be between 1 and 100" "news"), []) :=
  get_stock_news_count_validation "AAPL" none 150 none none none (envWith "K") "T"
    (.ok []) (by decide)

/-! ## Travel-class alias resolution -/

/-- The matching relation of claim C7, from its words: case- and
hyphen/underscore-insensitive comparison (spec-side definition). -/
def specAliasCanon (t : String) : String := pyReplaceHyphen (pyLower t)

/-- C7, counterexample: `"economy "` (trailing space) matches no table
alias under case/hyphen/underscore-insensitive comparison, so the claim
demands a validation error; the code additionally strips surrounding
whitespace, accepts the input, resolves it to tier 1, and dispatches the
call (here reaching the no-flights message rather than any validation
error). -/
theorem travel_class_claim_counterexample :
    TRAVEL_CLASS_MAP.all (fun p => specAliasCanon "economy " != specAliasCanon p.1) = true ∧
    (google_flights "JFK" "LAX" "2025-06-01" none none (some "economy ") none 5 (some 1)
        (envWith "K") "T" (.ok [])).1 = .ok (.obj [("message", .s "No flights found.")]) ∧
    jlookup ((google_flights "JFK" "LAX" "2025-06-01" none none (some "economy ") none 5
        (some 1) (envWith "K") "T" (.ok [])).2.headD []) "travel_class" = some (.i 1) :=
  ⟨by decide, by rfl, by rfl⟩

/-- C7 (amended): a non-empty travel-class string is lowercased, hyphens
are replaced by underscores and surrounding whitespace is stripped; if the
result is a key of `TRAVEL_CLASS_MAP` the resolved tier lies in
`{1,2,3,4}` and is placed in the dispatched parameter map, and otherwise
`google_flights` returns the validation error enumerating the valid
aliases before any gateway call.  (The matching relation of the claim omits the
whitespace stripping: see the counterexample.) -/
theorem travel_class_resolution (tc k ts : String) (oracle : Except String JObj)
    (htc : (tc != "") = true) (hk : (k != "") = true) :
    (∀ t, lookupTC (pyStrip (pyReplaceHyphen (pyLower tc))) = some t →
      (t = 1 ∨ t = 2 ∨ t = 3 ∨ t = 4) ∧
      ∃ p, (google_flights "JFK" "LAX" "2025-06-01" none none (some tc) none 5 (some 1)
          (envWith k) ts oracle).2 = [p] ∧
        jlookup p "travel_class" = some (.i t)) ∧
    (lookupTC (pyStrip (pyReplaceHyphen (pyLower tc))) = none →
      google_flights "JFK" "LAX" "2025-06-01" none none (some tc) none 5 (some 1)
          (envWith k) ts oracle =
        (.ok (.obj [("error", .s (invalidTravelClassMsg tc))]), [])) := by
  constructor
  · intro t hsome
    constructor
    · have hmem : ∃ pr, pr ∈ TRAVEL_CLASS_MAP ∧ pr.2 = t := by
        unfold lookupTC at hsome
        rcases hf : TRAVEL_CLASS_MAP.find?
            (fun p => p.1 == pyStrip (pyReplaceHyphen (pyLower tc))) with _ | pr
        · rw [hf] at hsome; simp at hsome
        · rw [hf] at hsome
          exact ⟨pr, List.mem_of_find?_eq_some hf, by simpa using hsome⟩
      obtain ⟨pr, hpr, hprt⟩ := hmem
      subst hprt
      fin_cases hpr <;> simp
    · unfold google_flights
      simp only [htc, eq_self_iff_true, if_true, hsome, envWith, optStrTruthy, hk,
        Bool.true_eq_false, if_false]
      split
      · exact ⟨_, rfl, by rfl⟩
      · exact ⟨_, rfl, by rfl⟩
  · intro hnone
    unfold google_flights
    simp only [htc, eq_self_iff_true, if_true, hnone, Option.getD_some]

/-- Witness for the C7 theorem at `tc = "Business-Class"` (tier 3). -/
theorem travel_class_resolution_witness :
    ((3 : Int) = 1 ∨ (3 : Int) = 2 ∨ (3 : Int) = 3 ∨ (3 : Int) = 4) ∧
    ∃ p, (google_flights "JFK" "LAX" "2025-06-01" none none (some "Business-Class") none 5
        (some 1) (envWith "K") "T" (.ok [])).2 = [p] ∧
      jlookup p "travel_class" = some (.i 3) :=
  (travel_class_resolution "Business-Class" "K" "T" (.ok []) rfl rfl).1 3 rfl

/-! ## Missing credential and empty-query checks -/

theorem envWith_key (k : String) : envWith k "SERP_API_KEY" = some k := by
  simp [envWith]

/-- C8, counterexample: with the credential absent, `google_flights` and
`get_stock_quote` report the failure with different shapes and different
messages — a bare `{"error": "SERP_API_KEY environment variable is
required"}` (not an envelope) versus an envelope carrying
`"SERP_API_KEY not configured"` — refuting "same shape and same message
for every handler". -/
theorem missing_credential_counterexample :
    (google_flights "jfk" "lax" "2025-06-01" none none (some "economy") none 5 (some 1)
        (fun _ => none) "T" (.ok [])).1 =
      .ok (.obj [("error", .s "SERP_API_KEY environment variable is required")]) ∧
    (get_stock_quote "AAPL" none none (fun _ => none) "T" (.ok [])).1 =
      .ok (create_error_response "T" "AAPL" "SERP_API_KEY not configured" "stock_quote") ∧
    ("SERP_API_KEY environment variable is required" ≠ "SERP_API_KEY not configured") ∧
    envelopeOK (.obj [("error", .s "SERP_API_KEY environment variable is required")]) = false ∧
    envelopeOK (create_error_response "T" "AAPL" "SERP_API_KEY not configured" "stock_quote") = true :=
  ⟨by rfl, by rfl, by decide, by rfl, by rfl⟩

/-- C8 (amended): when the credential is absent every tool handler returns
an immediate configuration error and makes no gateway call; the seven
finance handlers all report the same message "SERP_API_KEY not configured"
in an error envelope (differing only in tool tag and echoed query), while
`google_flights` reports a bare object with the different message
"SERP_API_KEY environment variable is required" — the error is therefore
immediate and call-free for every handler, but not reported identically
across all eight. -/
theorem missing_credential_behavior (q ts : String) (oracle : Except String JObj)
    (hq : (pyStrip q == "") = false) :
    google_flights "jfk" "lax" "2025-06-01" none none (some "economy") none 5 (some 1)
        (fun _ => none) ts oracle =
      (.ok (.obj [("error", .s "SERP_API_KEY environment variable is required")]), []) ∧
    get_stock_quote q none none (fun _ => none) ts oracle =
      (.ok (create_error_response ts q "SERP_API_KEY not configured" "stock_quote"), []) ∧
    get_market_data "indexes" none none (fun _ => none) ts oracle =
      (.ok (create_error_response ts "indexes" "SERP_API_KEY not configured" "market_data"), []) ∧
    get_graph_data q "1d" none none (fun _ => none) ts oracle =
      (.ok (create_error_response ts q "SERP_API_KEY not configured" "graph_data"), []) ∧
    compare_stocks q "1d" none none (fun _ => none) ts oracle =
      (.ok (create_error_response ts q "SERP_API_KEY not configured" "comparison"), []) ∧
    get_financials q none none none (fun _ => none) ts oracle =
      (.ok (create_error_response ts q "SERP_API_KEY not configured" "financials"), []) ∧
    get_stock_news q none 10 none none none (fun _ => none) ts oracle =
      (.ok (create_error_response ts q "SERP_API_KEY not configured" "news"), []) ∧
    debug_api_response q "google_finance" none none (fun _ => none) ts oracle =
      (.ok (create_error_response ts q "SERP_API_KEY not configured" "debug"), []) := by
  refine ⟨by rfl, ?_, by rfl, by rfl, by rfl, by rfl, by rfl, by rfl⟩
  unfold get_stock_quote
  simp only [hq, Bool.false_eq_true, if_false]
  rfl

/-- Witness for the C8 theorem at `q = "AAPL"`. -/
theorem missing_credential_behavior_witness :
    google_flights "jfk" "lax" "2025-06-01" none none (some "economy") none 5 (some 1)
        (fun _ => none) "T" (.ok []) =
      (.ok (.obj [("error", .s "SERP_API_KEY environment variable is required")]), []) ∧
    get_stock_quote "AAPL" none none (fun _ => none) "T" (.ok []) =
      (.ok (create_error_response "T" "AAPL" "SERP_API_KEY not configured" "stock_quote"), []) ∧
    get_market_data "indexes" none none (fun _ => none) "T" (.ok []) =
      (.ok (create_error_response "T" "indexes" "SERP_API_KEY not configured" "market_data"), []) ∧
    get_graph_data "AAPL" "1d" none none (fun _ => none) "T" (.ok []) =
      (.ok (create_error_response "T" "AAPL" "SERP_API_KEY not configured" "graph_data"), []) ∧
    compare_stocks "AAPL" "1d" none none (fun _ => none) "T" (.ok []) =
      (.ok (create_error_response "T" "AAPL" "SERP_API_KEY not configured" "comparison"), []) ∧
    get_financials "AAPL" none none none (fun _ => none) "T" (.ok []) =
      (.ok (create_error_response "T" "AAPL" "SERP_API_KEY not configured" "financials"), []) ∧
    get_stock_news "AAPL" none 10 none none none (fun _ => none) "T" (.ok []) =
      (.ok (create_error_response "T" "AAPL" "SERP_API_KEY not configured" "news"), []) ∧
    debug_api_response "AAPL" "google_finance" none none (fun _ => none) "T" (.ok []) =
      (.ok (create_error_response "T" "AAPL" "SERP_API_KEY not configured" "debug"), []) :=
  missing_credential_behavior "AAPL" "T" (.ok []) rfl

/-- C10: a whitespace-only query makes `get_stock_quote` return the
"Query cannot be empty" envelope with no gateway call, before the
credential check (the environment is arbitrary, including one with no
key); no other query-taking handler performs this emptiness check — each
of `get_graph_data`, `compare_stocks`, `get_financials`, `get_stock_news`
and `debug_api_response` dispatches a gateway call for the same
whitespace query (`get_market_data` takes no query at all). -/
theorem empty_query_check (q ts k : String) (gl hl : Option String)
    (env : String → Option String) (oracle : Except String JObj)
    (hq : (pyStrip q == "") = true) (hk : (k != "") = true) :
    get_stock_quote q gl hl env ts oracle =
      (.ok (create_error_response ts q "Query cannot be empty" "stock_quote"), []) ∧
    (get_graph_data q "1d" none none (envWith k) ts oracle).2 ≠ [] ∧
    (compare_stocks q "1d" none none (envWith k) ts oracle).2 ≠ [] ∧
    (get_financials q none none none (fun _ => some k) ts oracle).2 ≠ [] ∧
    (get_stock_news q none 10 none none none (envWith k) ts oracle).2 ≠ [] ∧
    (debug_api_response q "google_finance" none none (envWith k) ts oracle).2 ≠ [] := by
  refine ⟨?_, ?_, ?_, ?_, ?_, ?_⟩
  · unfold get_stock_quote
    rw [if_pos hq]
  · unfold get_graph_data
    rw [if_neg (by decide)]
    simp only [envWith_key, optStrTruthy, hk]
    rw [if_neg (by decide)]
    simp
  · unfold compare_stocks
    rw [if_neg (by decide)]
    simp only [envWith_key, optStrTruthy, hk]
    rw [if_neg (by decide)]
    simp
  · unfold get_financials
    rw [if_neg (by decide)]
    simp only [optStrTruthy, hk]
    rw [if_neg (by decide)]
    simp
  · unfold get_stock_news
    rw [if_neg (by decide), if_neg (by decide)]
    simp only [envWith_key, optStrTruthy, hk]
    rw [if_neg (by decide)]
    simp
  · unfold debug_api_response
    simp only [envWith_key, optStrTruthy, hk]
    rw [if_neg (by decide)]
    simp

/-- Witness for the C10 theorem at `q = " "`, with a key-less environment
for the quote handler. -/
theorem empty_query_check_witness :
    get_stock_quote " " none none (fun _ => none) "T" (.ok []) =
      (.ok (create_error_response "T" " " "Query cannot be empty" "stock_quote"), []) ∧
    (get_graph_data " " "1d" none none (envWith "K") "T" (.ok [])).2 ≠ [] ∧
    (compare_stocks " " "1d" none none (envWith "K") "T" (.ok [])).2 ≠ [] ∧
    (get_financials " " none none none (fun _ => some "K") "T" (.ok [])).2 ≠ [] ∧
    (get_stock_news " " none 10 none none none (envWith "K") "T" (.ok [])).2 ≠ [] ∧
    (debug_api_response " " "google_finance" none none (envWith "K") "T" (.ok [])).2 ≠ [] :=
  empty_query_check " " "T" "K" none none (fun _ => none) (.ok []) rfl rfl

end MCPTools
